import Mathlib

/-!
Verification of the Lumin React Native SDK cadence-tracking engine
(class Lumin: constructor, init, startSession, endSession, setFirstOpenTime,
trackDailyActiveUser .. trackYearlyActiveUser, track, trackCustomEvent,
clearLuminItemsFromAsyncStorage).

Modelling conventions:
* Instants are integers counting seconds since the Unix epoch, in the one
  (local) time zone every date-fns helper of the source operates in.  The
  source stores Date.toString() values and re-parses them; at whole-second
  granularity that round-trips exactly, so markers are stored as the instant
  itself.
* The AsyncStorage state visible to the SDK is the six namespaced keys, one
  Option-valued field each.
* differenceInSeconds, isBefore, startOfToday, startOfWeek, startOfMonth and
  startOfYear are the date-fns v2 helpers the source imports; startOfWeek is
  called without options, so its weekStartsOn default 0 (Sunday) applies.
  startOfMonth and startOfYear are computed through the standard
  proleptic-Gregorian civil-calendar conversion.
-/

namespace Lumin

/-! ## Calendar utilities (the date-fns helpers used by the source) -/

/-- Seconds in a civil day. -/
def secondsPerDay : Int := 86400

/-- The civil day an instant falls in, as days since 1970-01-01. -/
def epochDay (t : Int) : Int := t.fdiv secondsPerDay

/-- date-fns startOfToday relative to the instant taken as now: midnight of
the day the instant falls in. -/
def startOfToday (t : Int) : Int := epochDay t * secondsPerDay

/-- Day of week of an instant, 0 = Sunday .. 6 = Saturday
(1970-01-01 was a Thursday, day 4). -/
def dayOfWeek (t : Int) : Int := (epochDay t + 4).emod 7

/-- date-fns startOfWeek with its default weekStartsOn = 0: midnight of the
most recent Sunday (possibly today). -/
def startOfWeek (t : Int) : Int := startOfToday t - secondsPerDay * dayOfWeek t

/-- Civil date (year, month 1..12, day 1..31) of a count of days since
1970-01-01, by the standard Gregorian era decomposition. -/
def civilFromDays (z : Int) : Int × Int × Int :=
  let z' := z + 719468
  let era := z'.fdiv 146097
  let doe := z' - era * 146097
  let yoe := (doe - doe.ediv 1460 + doe.ediv 36524 - doe.ediv 146096).ediv 365
  let y := yoe + era * 400
  let doy := doe - (365 * yoe + yoe.ediv 4 - yoe.ediv 100)
  let mp := (5 * doy + 2).ediv 153
  let d := doy - (153 * mp + 2).ediv 5 + 1
  let m := mp + (if mp < 10 then 3 else -9)
  (y + (if m ≤ 2 then 1 else 0), m, d)

/-- Days since 1970-01-01 of a civil date, inverse of civilFromDays. -/
def daysFromCivil (y m d : Int) : Int :=
  let y' := y - (if m ≤ 2 then 1 else 0)
  let era := y'.fdiv 400
  let yoe := y' - era * 400
  let doy := (153 * (m + (if m > 2 then -3 else 9)) + 2).ediv 5 + d - 1
  let doe := yoe * 365 + yoe.ediv 4 - yoe.ediv 100 + doy
  era * 146097 + doe - 719468

/-- date-fns startOfMonth: midnight of the first day of the instant's month. -/
def startOfMonth (t : Int) : Int :=
  let c := civilFromDays (epochDay t)
  daysFromCivil c.1 c.2.1 1 * secondsPerDay

/-- date-fns startOfYear: midnight of January 1 of the instant's year. -/
def startOfYear (t : Int) : Int :=
  let c := civilFromDays (epochDay t)
  daysFromCivil c.1 1 1 * secondsPerDay

/-- date-fns isBefore. -/
def isBefore (a b : Int) : Bool := a < b

/-- date-fns differenceInSeconds: at whole-second granularity, plain
subtraction. -/
def differenceInSeconds (a b : Int) : Int := a - b

/-! ## Data model: storage state, configuration, events -/

/-- The SDK-visible AsyncStorage contents: the value (parsed back to an
instant) stored under each of the six namespaced keys, or none when the key
is absent. -/
structure Store where
  firstOpenTime : Option Int
  endOfLastSession : Option Int
  lastDauTracked : Option Int
  lastWauTracked : Option Int
  lastMauTracked : Option Int
  lastYauTracked : Option Int
deriving DecidableEq, Repr

/-- The store of a fresh install: no key present. -/
def emptyStore : Store :=
  { firstOpenTime := none
    endOfLastSession := none
    lastDauTracked := none
    lastWauTracked := none
    lastMauTracked := none
    lastYauTracked := none }

/-- config.trackingIntervals: optional per-cadence override intervals in
seconds. -/
structure TrackingIntervals where
  dailyActiveUser : Option Nat := none
  weeklyActiveUser : Option Nat := none
  monthlyActiveUser : Option Nat := none
  yearlyActiveUser : Option Nat := none
deriving DecidableEq, Repr

/-- The configuration fields the tracking logic reads (merged result of
defaultConfig and the caller's overrides). -/
structure LuminConfig where
  automaticallyTrackActiveUsers : Bool := true
  trackingIntervals : TrackingIntervals := {}
  logResponse : Bool := false
  logError : Bool := true
deriving DecidableEq, Repr

/-- The events the core emits.  SESSION_START carries timeSinceLastSession
(seconds, or none), SESSION_END carries the session duration. -/
inductive Event where
  | FIRST_OPEN : Event
  | SESSION_START : Option Int → Event
  | SESSION_END : Int → Event
  | DAILY_ACTIVE_USER : Event
  | WEEKLY_ACTIVE_USER : Event
  | MONTHLY_ACTIVE_USER : Event
  | YEARLY_ACTIVE_USER : Event
deriving DecidableEq, Repr

/-! ## The cadence evaluator -/

/-- JavaScript truthiness of an optional number, as used by the ternary
condition of each cadence method: undefined and 0 are falsy. -/
def jsTruthy : Option Nat → Bool
  | none => false
  | some n => n != 0

/-- One cadence check, the shared body of the four trackXActiveUser methods:
given the configured override interval of the cadence, its calendar boundary
function, now, and the persisted marker, it returns whether the
PERIOD_ACTIVE_USER event is emitted and the marker value afterwards.
Mirrors the source: when a marker exists, the condition is the ternary
`intervals?.xActiveUser ? differenceInSeconds(now, last) > interval
: isBefore(last, startOfPeriod(now))`; on emission (and when no marker
exists, where it always emits) the marker is set to now. -/
def cadenceStep (interval : Option Nat) (startOfPeriod : Int → Int)
    (now : Int) (lastTimeActive : Option Int) : Bool × Option Int :=
  match lastTimeActive with
  | some last =>
      let timeCondition : Bool :=
        if jsTruthy interval then
          differenceInSeconds now last > ((interval.getD 0 : Nat) : Int)
        else
          isBefore last (startOfPeriod now)
      if timeCondition then (true, some now) else (false, some last)
  | none => (true, some now)

/-- trackDailyActiveUser: emitted flag and store afterwards. -/
def trackDailyActiveUser (cfg : LuminConfig) (now : Int) (s : Store) :
    Bool × Store :=
  let r := cadenceStep cfg.trackingIntervals.dailyActiveUser startOfToday now
    s.lastDauTracked
  (r.1, { s with lastDauTracked := r.2 })

/-- trackWeeklyActiveUser: emitted flag and store afterwards. -/
def trackWeeklyActiveUser (cfg : LuminConfig) (now : Int) (s : Store) :
    Bool × Store :=
  let r := cadenceStep cfg.trackingIntervals.weeklyActiveUser startOfWeek now
    s.lastWauTracked
  (r.1, { s with lastWauTracked := r.2 })

/-- trackMonthlyActiveUser: emitted flag and store afterwards. -/
def trackMonthlyActiveUser (cfg : LuminConfig) (now : Int) (s : Store) :
    Bool × Store :=
  let r := cadenceStep cfg.trackingIntervals.monthlyActiveUser startOfMonth now
    s.lastMauTracked
  (r.1, { s with lastMauTracked := r.2 })

/-- trackYearlyActiveUser: emitted flag and store afterwards. -/
def trackYearlyActiveUser (cfg : LuminConfig) (now : Int) (s : Store) :
    Bool × Store :=
  let r := cadenceStep cfg.trackingIntervals.yearlyActiveUser startOfYear now
    s.lastYauTracked
  (r.1, { s with lastYauTracked := r.2 })

/-- trackActiveUser: runs the four cadence checks (they touch disjoint keys,
so running them in order is equivalent to the source's unordered launches)
and collects the emitted events. -/
def trackActiveUser (cfg : LuminConfig) (now : Int) (s : Store) :
    List Event × Store :=
  let d := trackDailyActiveUser cfg now s
  let w := trackWeeklyActiveUser cfg now d.2
  let m := trackMonthlyActiveUser cfg now w.2
  let y := trackYearlyActiveUser cfg now m.2
  ((if d.1 then [Event.DAILY_ACTIVE_USER] else []) ++
   (if w.1 then [Event.WEEKLY_ACTIVE_USER] else []) ++
   (if m.1 then [Event.MONTHLY_ACTIVE_USER] else []) ++
   (if y.1 then [Event.YEARLY_ACTIVE_USER] else []), y.2)

/-- The four cadence periods. -/
inductive Cadence where
  | daily : Cadence
  | weekly : Cadence
  | monthly : Cadence
  | yearly : Cadence
deriving DecidableEq, Repr

/-- The trackXActiveUser method of a cadence. -/
def Cadence.run : Cadence → LuminConfig → Int → Store → Bool × Store
  | Cadence.daily => trackDailyActiveUser
  | Cadence.weekly => trackWeeklyActiveUser
  | Cadence.monthly => trackMonthlyActiveUser
  | Cadence.yearly => trackYearlyActiveUser

/-- The configured override interval a cadence's method reads. -/
def Cadence.interval : Cadence → LuminConfig → Option Nat
  | Cadence.daily, cfg => cfg.trackingIntervals.dailyActiveUser
  | Cadence.weekly, cfg => cfg.trackingIntervals.weeklyActiveUser
  | Cadence.monthly, cfg => cfg.trackingIntervals.monthlyActiveUser
  | Cadence.yearly, cfg => cfg.trackingIntervals.yearlyActiveUser

/-- The calendar boundary function a cadence's method uses. -/
def Cadence.startOfPeriod : Cadence → Int → Int
  | Cadence.daily => startOfToday
  | Cadence.weekly => startOfWeek
  | Cadence.monthly => startOfMonth
  | Cadence.yearly => startOfYear

/-- The persisted marker a cadence's method reads. -/
def Cadence.marker : Cadence → Store → Option Int
  | Cadence.daily, s => s.lastDauTracked
  | Cadence.weekly, s => s.lastWauTracked
  | Cadence.monthly, s => s.lastMauTracked
  | Cadence.yearly, s => s.lastYauTracked

/-! ## First-open check, sessions, init, reset -/

/-- setFirstOpenTime, at the store level: when the firstOpenTime key is
absent the callback writes now under it and emits FIRST_OPEN; when present it
does nothing. -/
def setFirstOpenTime (now : Int) (s : Store) : List Event × Store :=
  match s.firstOpenTime with
  | none => ([Event.FIRST_OPEN], { s with firstOpenTime := some now })
  | some _ => ([], s)

/-- startSession: sets the in-memory sessionStartTime to now (second
component), reads endOfLastSession, and emits SESSION_START carrying
timeSinceLastSession = differenceInSeconds(now, stored end) when a prior end
is recorded and null otherwise.  It writes nothing to the store. -/
def startSession (now : Int) (s : Store) : List Event × Int :=
  ([Event.SESSION_START (s.endOfLastSession.map fun t =>
    differenceInSeconds now t)], now)

/-- endSession: emits SESSION_END with the elapsed duration and writes now
under the endOfLastSession key. -/
def endSession (now : Int) (sessionStartTime : Int) (s : Store) :
    List Event × Store :=
  ([Event.SESSION_END (differenceInSeconds now sessionStartTime)],
   { s with endOfLastSession := some now })

/-- init, at the store level (the AppState subscription aside): the
first-open check runs unconditionally, then the four cadence checks run when
automaticallyTrackActiveUsers is set, then a session starts.  Only the
first-open check and the cadence checks write to the store. -/
def init (cfg : LuminConfig) (now : Int) (s : Store) : List Event × Store :=
  let fo := setFirstOpenTime now s
  let au := if cfg.automaticallyTrackActiveUsers then
    trackActiveUser cfg now fo.2 else ([], fo.2)
  let ss := startSession now au.2
  (fo.1 ++ au.1 ++ ss.1, au.2)

/-- A sequence of app launches sharing one store: init is run at each listed
instant, threading the store through. -/
def initRun (cfg : LuminConfig) (launches : List Int) (s : Store) :
    List Event × Store :=
  match launches with
  | [] => ([], s)
  | now :: rest =>
      let r := init cfg now s
      let r' := initRun cfg rest r.2
      (r.1 ++ r'.1, r'.2)

/-- How many FIRST_OPEN events a list of emissions contains. -/
def countFirstOpen (es : List Event) : Nat :=
  es.countP fun e => decide (e = Event.FIRST_OPEN)

/-- clearLuminItemsFromAsyncStorage, at the store level: removes each of the
six keys. -/
def clearLuminItemsFromAsyncStorage (s : Store) : Store :=
  { s with
    firstOpenTime := none
    endOfLastSession := none
    lastDauTracked := none
    lastWauTracked := none
    lastMauTracked := none
    lastYauTracked := none }

/-- The in-memory state alongside the store, for claims about what reset
leaves untouched. -/
structure LuminState where
  store : Store
  sessionStartTime : Int
deriving DecidableEq, Repr

/-- clearLuminItemsFromAsyncStorage on the full state: clears the store,
emits nothing, and leaves the in-memory session state as it was. -/
def clearLuminState (st : LuminState) : LuminState × List Event :=
  ({ st with store := clearLuminItemsFromAsyncStorage st.store }, [])

/-! ## Constructor and key derivation -/

/-- The six namespaced AsyncStorage key names. -/
structure AsyncStorageKeys where
  firstOpenTime : String
  endOfLastSession : String
  lastDauTracked : String
  lastWauTracked : String
  lastMauTracked : String
  lastYauTracked : String
deriving DecidableEq, Repr

/-- The key names the constructor derives from appId. -/
def mkAsyncStorageKeys (appId : String) : AsyncStorageKeys :=
  { firstOpenTime := "lumin_" ++ appId ++ "_first_open_time"
    endOfLastSession := "lumin_" ++ appId ++ "_end_of_last_session"
    lastDauTracked := "lumin_" ++ appId ++ "_last_dau_tracked"
    lastWauTracked := "lumin_" ++ appId ++ "_last_wau_tracked"
    lastMauTracked := "lumin_" ++ appId ++ "_last_mau_tracked"
    lastYauTracked := "lumin_" ++ appId ++ "_last_yau_tracked" }

/-- The identity fields a successful construction binds. -/
structure LuminInstance where
  id : String
  token : String
  asyncStorageKeys : AsyncStorageKeys
deriving DecidableEq, Repr

/-- JavaScript String.split on a colon, over the token's characters: cut at
every colon, keeping empty segments. -/
def splitChars : List Char → List (List Char)
  | [] => [[]]
  | c :: rest =>
      match splitChars rest with
      | [] => []
      | seg :: segs =>
          if c = ':' then [] :: seg :: segs else (c :: seg) :: segs

/-- JavaScript String.trim: strip whitespace from both ends. -/
def jsTrim (cs : List Char) : List Char :=
  ((cs.dropWhile Char.isWhitespace).reverse.dropWhile Char.isWhitespace).reverse

/-- The segment list the constructor computes: the trimmed token split on
every colon. -/
def tokenSegments (token : String) : List String :=
  (splitChars (jsTrim token.toList)).map String.mk

/-- The constructor: trims the token and splits it on every colon,
destructures the first two segments (a missing segment reads as undefined,
falsy like the empty string), and fails when either is falsy; otherwise
binds id, token and the derived keys. -/
def luminConstructor (token : String) : Except String LuminInstance :=
  let parts := tokenSegments token
  let appId := parts.getD 0 ""
  let appToken := parts.getD 1 ""
  if appId = "" ∨ appToken = "" then
    Except.error "Lumin token malformed!"
  else
    Except.ok { id := appId, token := appToken
                asyncStorageKeys := mkAsyncStorageKeys appId }

/-- The constructor, rewritten as one conditional. -/
theorem luminConstructor_eq_ite (t : String) :
    luminConstructor t =
      if (tokenSegments t).getD 0 "" = "" ∨ (tokenSegments t).getD 1 "" = ""
      then Except.error "Lumin token malformed!"
      else Except.ok
        { id := (tokenSegments t).getD 0 ""
          token := (tokenSegments t).getD 1 ""
          asyncStorageKeys :=
            mkAsyncStorageKeys ((tokenSegments t).getD 0 "") } := rfl

/-- The storage and network primitives the constructor body invokes: none.
Its statements are the token parse and plain field assignments; no
AsyncStorage or fetch call appears between them. -/
def luminConstructorOps (_token : String) : List String := []

/-! ## Asynchronous execution order

The source launches its storage writes and network sends through promise
chains without awaiting most of them, so the order in which the primitive
operations run is fixed by the JavaScript event loop: an async function's
returned promise resolves when its body finishes; a then-callback registered
on an already-resolved promise runs as a microtask, after the currently
running synchronous code and before the next macrotask; a network response
(settling the promise returned by fetch) is delivered in a later macrotask,
after all pending microtasks have run. -/

/-- The primitive observable operations, in execution order. -/
inductive Op where
  | getItem : String → Op
  | setItem : String → Op
  | removeItem : String → Op
  | fetchStart : String → Op
  | fetchSettle : String → Op
deriving DecidableEq, Repr

/-- The operations caused by one call, partitioned by when the event loop
runs them: sync during the call itself, micro as microtasks directly after
the current synchronous code, net on later network-completion macrotasks. -/
structure Call where
  sync : List Op
  micro : List (List Op)
  net : List (List Op)
deriving DecidableEq, Repr

/-- Execution order of a call's operations: synchronous code first, then the
queued microtasks, then the network completions. -/
def Call.trace (c : Call) : List Op :=
  c.sync ++ c.micro.flatten ++ c.net.flatten

/-- A call to track(ev): the body synchronously starts the fetch and attaches
its response handlers, which run only when the network settles; the body
awaits nothing, so the async method's returned promise resolves as soon as
the body ends. -/
def trackCall (ev : String) : Call :=
  { sync := [Op.fetchStart ev], micro := [], net := [[Op.fetchSettle ev]] }

/-- Registering cb via .then on the promise of a call whose body awaits
nothing (such as track): that promise is already resolved when the current
synchronous code ends, so cb runs as a queued microtask, before any network
completion. -/
def Call.thenOps (c : Call) (cb : List Op) : Call :=
  { c with micro := c.micro ++ [cb] }

/-- Running ops synchronously just before a call, inside the same callback. -/
def Call.seqOps (pre : List Op) (c : Call) : Call :=
  { c with sync := pre ++ c.sync }

/-- The operations of the emit path of trackDailyActiveUser, in execution
order: the awaited marker read resumes the method in a microtask, whose code
calls track (starting the fetch) and registers the marker write on track's
returned promise; that promise is already resolved, so the write runs as the
next microtask, and the network settles afterwards. -/
def trackDailyActiveUserEmitTrace (appId : String) : List Op :=
  Op.getItem (mkAsyncStorageKeys appId).lastDauTracked ::
    ((trackCall "DAILY_ACTIVE_USER").thenOps
      [Op.setItem (mkAsyncStorageKeys appId).lastDauTracked]).trace

/-- The operations of setFirstOpenTime when the marker is absent, in
execution order: the marker read resumes the callback, whose code calls
setItem and then track, in that order, within the same synchronous run. -/
def setFirstOpenTimeEmitTrace (appId : String) : List Op :=
  Op.getItem (mkAsyncStorageKeys appId).firstOpenTime ::
    (Call.seqOps [Op.setItem (mkAsyncStorageKeys appId).firstOpenTime]
      (trackCall "FIRST_OPEN")).trace

/-! ## Promise settlement

How the promises involved in track settle, as a function of whether the
network send fails. -/

/-- How a promise settles. -/
inductive Settlement where
  | fulfilled : Settlement
  | rejected : Settlement
deriving DecidableEq, Repr

/-- What a handler does when run. -/
inductive HandlerResult where
  | returns : HandlerResult
  | throws : HandlerResult
deriving DecidableEq, Repr

/-- Settlement of the promise returned by fetch itself. -/
def fetchOutcome (sendFails : Bool) : Settlement :=
  if sendFails then Settlement.rejected else Settlement.fulfilled

/-- Settlement of p.then(f): on fulfillment f runs and its result decides the
settlement; a rejection passes through untouched. -/
def thenSettle (p : Settlement) (onFulfilled : HandlerResult) : Settlement :=
  match p with
  | Settlement.fulfilled =>
      match onFulfilled with
      | HandlerResult.returns => Settlement.fulfilled
      | HandlerResult.throws => Settlement.rejected
  | Settlement.rejected => Settlement.rejected

/-- Settlement of p.catch(g): on rejection g runs and its result decides the
settlement; a fulfillment passes through untouched. -/
def catchSettle (p : Settlement) (onRejected : HandlerResult) : Settlement :=
  match p with
  | Settlement.fulfilled => Settlement.fulfilled
  | Settlement.rejected =>
      match onRejected with
      | HandlerResult.returns => Settlement.fulfilled
      | HandlerResult.throws => Settlement.rejected

/-- Settlement of the fetch chain built inside track's body:
fetch(...).then(response handler, which logs and returns)
.catch(error handler, which logs when logError is set and rethrows). -/
def fetchChainSettle (sendFails : Bool) : Settlement :=
  catchSettle (thenSettle (fetchOutcome sendFails) HandlerResult.returns)
    HandlerResult.throws

/-- The body of an async function, reduced to how it interacts with
promises: it can start a chain without awaiting or returning it, await a
chain, or finish. -/
inductive AsyncBody where
  | ret : AsyncBody
  | spawn : Settlement → AsyncBody → AsyncBody
  | awaitP : Settlement → AsyncBody → AsyncBody

/-- Settlement of the promise an async function returns: it rejects exactly
when the body throws, which here can only come from awaiting a rejected
promise; a chain merely spawned never affects it. -/
def AsyncBody.settle : AsyncBody → Settlement
  | AsyncBody.ret => Settlement.fulfilled
  | AsyncBody.spawn _ k => AsyncBody.settle k
  | AsyncBody.awaitP p k =>
      match p with
      | Settlement.rejected => Settlement.rejected
      | Settlement.fulfilled => AsyncBody.settle k

/-- track's body with respect to its fetch chain: the chain is started but
neither awaited nor returned. -/
def trackBody (sendFails : Bool) : AsyncBody :=
  AsyncBody.spawn (fetchChainSettle sendFails) AsyncBody.ret

/-- Settlement of the promise track returns to its caller. -/
def trackSettle (sendFails : Bool) : Settlement :=
  (trackBody sendFails).settle

/-- trackCustomEvent's body: it calls track without awaiting or returning
its promise. -/
def trackCustomEventBody (sendFails : Bool) : AsyncBody :=
  AsyncBody.spawn (trackSettle sendFails) AsyncBody.ret

/-- Settlement of the promise trackCustomEvent returns to its caller. -/
def trackCustomEventSettle (sendFails : Bool) : Settlement :=
  (trackCustomEventBody sendFails).settle

/-- Modelled from the spec: the Monday-based week boundary the spec ascribes
to the weekly cadence.  The source itself calls date-fns startOfWeek with no
options, which uses the weekStartsOn = 0 (Sunday) default; this definition
exists only to compare the spec's words against that behaviour. -/
def startOfWeekMonday (t : Int) : Int :=
  startOfToday t - secondsPerDay * ((dayOfWeek t - 1).emod 7)

/-! ## Helper lemmas -/

theorem run_fst (c : Cadence) (cfg : LuminConfig) (now : Int) (s : Store) :
    (c.run cfg now s).1 =
      (cadenceStep (c.interval cfg) c.startOfPeriod now (c.marker s)).1 := by
  cases c <;> rfl

theorem run_marker (c : Cadence) (cfg : LuminConfig) (now : Int) (s : Store) :
    c.marker (c.run cfg now s).2 =
      (cadenceStep (c.interval cfg) c.startOfPeriod now (c.marker s)).2 := by
  cases c <;> rfl

theorem emit_ite_fst (c : Prop) [Decidable c] (x y : Option Int) :
    (if c then ((true : Bool), x) else ((false : Bool), y)).1 = true ↔ c := by
  split <;> simp_all

theorem cadenceStep_interval_pos (i : Nat) (hi : i ≠ 0) (f : Int → Int)
    (now last : Int) :
    (cadenceStep (some i) f now (some last)).1 = true ↔
      differenceInSeconds now last > (i : Int) := by
  simp only [cadenceStep, jsTruthy, hi]
  simp [emit_ite_fst, differenceInSeconds]
  exact fun h => absurd h hi

theorem cadenceStep_calendar (interval : Option Nat) (f : Int → Int)
    (now last : Int) (h : jsTruthy interval = false) :
    (cadenceStep interval f now (some last)).1 = true ↔ last < f now := by
  simp only [cadenceStep, h, isBefore]
  simp [emit_ite_fst]

theorem cadenceStep_no_marker (interval : Option Nat) (f : Int → Int)
    (now : Int) : cadenceStep interval f now none = (true, some now) := rfl

/-! ## Claim theorems -/

/-- C1 fails as stated at interval 0: with trackingIntervals.dailyActiveUser
set to 0 and the marker persisted 5 seconds before now (within the current
day), now - lastTracked > 0 holds, so the claim requires an emission, but
trackDailyActiveUser emits nothing: the configured 0 is falsy, so the code
falls back to the calendar-boundary comparison. -/
theorem c1_interval_zero_counterexample :
    (trackDailyActiveUser
        { trackingIntervals := { dailyActiveUser := some 0 } }
        1641601000
        { emptyStore with lastDauTracked := some 1641600995 }).1 = false ∧
    differenceInSeconds 1641601000 1641600995 > (0 : Int) := by
  constructor
  · decide
  · decide

/-- C1 (amended): for every cadence period with a configured override
interval I > 0 and a persisted last-tracked instant, the evaluator emits the
PERIOD_ACTIVE_USER event iff (now - lastTracked) > I; in particular at
equality it does not emit.  (A configured interval of 0 is falsy in the
source's ternary condition and behaves as unconfigured.) -/
theorem c1_interval_cadence_emits_iff (c : Cadence) (cfg : LuminConfig)
    (s : Store) (now last : Int) (i : Nat)
    (hI : c.interval cfg = some i) (hpos : 0 < i)
    (hM : c.marker s = some last) :
    (c.run cfg now s).1 = true ↔
      differenceInSeconds now last > (i : Int) := by
  rw [run_fst, hI, hM]
  exact cadenceStep_interval_pos i (Nat.pos_iff_ne_zero.mp hpos)
    c.startOfPeriod now last

/-- Witness for C1 (amended) at the daily cadence, interval 3600, marker
1000, now 10000. -/
theorem c1_interval_cadence_emits_iff_witness :
    (Cadence.daily.interval
      { trackingIntervals := { dailyActiveUser := some 3600 } } =
        some 3600) ∧
    (0 < 3600) ∧
    (Cadence.daily.marker { emptyStore with lastDauTracked := some 1000 } =
      some 1000) ∧
    ((Cadence.daily.run
        { trackingIntervals := { dailyActiveUser := some 3600 } } 10000
        { emptyStore with lastDauTracked := some 1000 }).1 = true ↔
      differenceInSeconds 10000 1000 > (3600 : Int)) :=
  ⟨rfl, by decide, rfl,
    c1_interval_cadence_emits_iff Cadence.daily
      { trackingIntervals := { dailyActiveUser := some 3600 } }
      { emptyStore with lastDauTracked := some 1000 } 10000 1000 3600
      rfl (by decide) rfl⟩

/-- C2 fails as stated on the week boundary: with no override interval, a
marker at Sunday noon (1555243200, day 18000 since the epoch) and now on the
following Monday at 01:00 (1555290000), the marker lies strictly before the
Monday-based week start the claim prescribes, yet trackWeeklyActiveUser
emits nothing, because date-fns startOfWeek defaults to Sunday as the week
start and the marker is not before the most recent Sunday midnight. -/
theorem c2_monday_week_counterexample :
    (trackWeeklyActiveUser {} 1555290000
        { emptyStore with lastWauTracked := some 1555243200 }).1 = false ∧
    isBefore 1555243200 (startOfWeekMonday 1555290000) = true ∧
    dayOfWeek 1555290000 = 1 := by
  refine ⟨by decide, by decide, by decide⟩

/-- C2 (amended): for every cadence period with no override interval
configured and a persisted last-tracked instant, the evaluator emits its
PERIOD_ACTIVE_USER event iff the last-tracked instant falls strictly before
the start of the current day/week/month/year matching the period, with the
week boundary Sunday-based (the date-fns startOfWeek default); at or after
that calendar start it does not emit. -/
theorem c2_calendar_cadence_emits_iff (c : Cadence) (cfg : LuminConfig)
    (s : Store) (now last : Int)
    (hI : c.interval cfg = none) (hM : c.marker s = some last) :
    (c.run cfg now s).1 = true ↔ last < c.startOfPeriod now := by
  rw [run_fst, hI, hM]
  exact cadenceStep_calendar none c.startOfPeriod now last rfl

/-- Witness for C2 (amended) at the weekly cadence, default configuration,
marker 1555243200, now 1555290000. -/
theorem c2_calendar_cadence_emits_iff_witness :
    (Cadence.weekly.interval {} = none) ∧
    (Cadence.weekly.marker
      { emptyStore with lastWauTracked := some 1555243200 } =
        some 1555243200) ∧
    ((Cadence.weekly.run {} 1555290000
        { emptyStore with lastWauTracked := some 1555243200 }).1 = true ↔
      1555243200 < Cadence.weekly.startOfPeriod 1555290000) :=
  ⟨rfl, rfl,
    c2_calendar_cadence_emits_iff Cadence.weekly {}
      { emptyStore with lastWauTracked := some 1555243200 }
      1555290000 1555243200 rfl rfl⟩

/-- C3: for every cadence period, when the persisted marker is absent the
evaluator emits the PERIOD_ACTIVE_USER event and writes now as the fresh
marker value, whatever the configuration. -/
theorem c3_absent_marker_always_emits (c : Cadence) (cfg : LuminConfig)
    (s : Store) (now : Int) (hM : c.marker s = none) :
    (c.run cfg now s).1 = true ∧
    c.marker (c.run cfg now s).2 = some now := by
  refine ⟨?_, ?_⟩
  · rw [run_fst, hM, cadenceStep_no_marker]
  · rw [run_marker, hM, cadenceStep_no_marker]

/-- Witness for C3 at the monthly cadence on a fresh store, now 7. -/
theorem c3_absent_marker_always_emits_witness :
    (Cadence.monthly.marker emptyStore = none) ∧
    ((Cadence.monthly.run {} 7 emptyStore).1 = true ∧
      Cadence.monthly.marker (Cadence.monthly.run {} 7 emptyStore).2 =
        some 7) :=
  ⟨rfl, c3_absent_marker_always_emits Cadence.monthly {} emptyStore 7 rfl⟩

/-! ### First-open counting lemmas -/

theorem countFirstOpen_append (a b : List Event) :
    countFirstOpen (a ++ b) = countFirstOpen a + countFirstOpen b :=
  List.countP_append _ _ _

theorem countFirstOpen_trackActiveUser (cfg : LuminConfig) (now : Int)
    (s : Store) : countFirstOpen (trackActiveUser cfg now s).1 = 0 := by
  simp only [trackActiveUser, countFirstOpen, List.countP_append]
  split <;> split <;> split <;> split <;> rfl

theorem countFirstOpen_nil : countFirstOpen [] = 0 := rfl

theorem countFirstOpen_first_open_singleton :
    countFirstOpen [Event.FIRST_OPEN] = 1 := rfl

theorem countFirstOpen_session_start (x : Option Int) :
    countFirstOpen [Event.SESSION_START x] = 0 := rfl

theorem trackActiveUser_no_first_open (cfg : LuminConfig) (now : Int)
    (s : Store) : ∀ a ∈ (trackActiveUser cfg now s).1, ¬a = Event.FIRST_OPEN := by
  intro a ha
  simp only [trackActiveUser, List.mem_append] at ha
  rcases ha with ((ha | ha) | ha) | ha <;> (split at ha <;> simp_all)

theorem countFirstOpen_init_none (cfg : LuminConfig) (now : Int) (s : Store)
    (h : s.firstOpenTime = none) : countFirstOpen (init cfg now s).1 = 1 := by
  cases hb : cfg.automaticallyTrackActiveUsers <;>
    simp [init, setFirstOpenTime, h, hb, countFirstOpen_append,
      countFirstOpen_trackActiveUser, startSession, countFirstOpen_nil,
      countFirstOpen_first_open_singleton, countFirstOpen_session_start,
      countFirstOpen, List.countP_cons, List.countP_append]
  all_goals exact trackActiveUser_no_first_open _ _ _

theorem countFirstOpen_init_some (cfg : LuminConfig) (now : Int) (s : Store)
    (t : Int) (h : s.firstOpenTime = some t) :
    countFirstOpen (init cfg now s).1 = 0 := by
  cases hb : cfg.automaticallyTrackActiveUsers <;>
    simp [init, setFirstOpenTime, h, hb, countFirstOpen_append,
      countFirstOpen_trackActiveUser, startSession, countFirstOpen_nil,
      countFirstOpen_first_open_singleton, countFirstOpen_session_start,
      countFirstOpen, List.countP_cons, List.countP_append]
  all_goals exact trackActiveUser_no_first_open _ _ _

theorem init_firstOpenTime (cfg : LuminConfig) (now : Int) (s : Store) :
    (init cfg now s).2.firstOpenTime = some (s.firstOpenTime.getD now) := by
  cases hb : cfg.automaticallyTrackActiveUsers <;>
    rcases h : s.firstOpenTime with _ | t <;>
      simp [init, setFirstOpenTime, h, hb, trackActiveUser,
        trackDailyActiveUser, trackWeeklyActiveUser, trackMonthlyActiveUser,
        trackYearlyActiveUser]

theorem countFirstOpen_initRun_some (cfg : LuminConfig) (L : List Int) :
    ∀ (s : Store) (t : Int), s.firstOpenTime = some t →
      countFirstOpen (initRun cfg L s).1 = 0 := by
  induction L with
  | nil => intro s t _; rfl
  | cons now rest ih =>
      intro s t h
      simp only [initRun, countFirstOpen_append]
      rw [countFirstOpen_init_some cfg now s t h,
        ih (init cfg now s).2 (s.firstOpenTime.getD now)
          (init_firstOpenTime cfg now s)]

theorem countFirstOpen_initRun_le_one (cfg : LuminConfig) (L : List Int)
    (s : Store) : countFirstOpen (initRun cfg L s).1 ≤ 1 := by
  cases L with
  | nil => exact Nat.zero_le 1
  | cons now rest =>
      simp only [initRun, countFirstOpen_append]
      have htail := countFirstOpen_initRun_some cfg rest (init cfg now s).2
        (s.firstOpenTime.getD now) (init_firstOpenTime cfg now s)
      rcases h : s.firstOpenTime with _ | t
      · rw [countFirstOpen_init_none cfg now s h, htail]
      · rw [countFirstOpen_init_some cfg now s t h, htail]
        exact Nat.zero_le 1

theorem countFirstOpen_pos_iff (es : List Event) :
    0 < countFirstOpen es ↔ Event.FIRST_OPEN ∈ es := by
  simp [countFirstOpen, List.countP_pos_iff]

/-- C5: across any sequence of init calls threading one store, at most one
FIRST_OPEN is emitted; a single init emits FIRST_OPEN iff the firstOpenTime
marker is absent, in which case now is persisted under it (when present the
marker is left as it was); and all of this holds for every configuration, so
in particular regardless of automaticallyTrackActiveUsers. -/
theorem c5_first_open_at_most_once (cfg : LuminConfig) (now : Int) (s : Store)
    (launches : List Int) :
    (Event.FIRST_OPEN ∈ (init cfg now s).1 ↔ s.firstOpenTime = none) ∧
    (init cfg now s).2.firstOpenTime = some (s.firstOpenTime.getD now) ∧
    countFirstOpen (initRun cfg launches s).1 ≤ 1 := by
  refine ⟨?_, init_firstOpenTime cfg now s,
    countFirstOpen_initRun_le_one cfg launches s⟩
  rcases h : s.firstOpenTime with _ | t
  · simp only [h, iff_true]
    rw [← countFirstOpen_pos_iff, countFirstOpen_init_none cfg now s h]
    exact Nat.zero_lt_one
  · simp only [h, reduceCtorEq, iff_false]
    intro hmem
    have := (countFirstOpen_pos_iff (init cfg now s).1).mpr hmem
    rw [countFirstOpen_init_some cfg now s t h] at this
    exact absurd this (lt_irrefl 0)

/-- Witness for C5 with the default configuration, now 5, a fresh store and
two subsequent launches. -/
theorem c5_first_open_at_most_once_witness :
    (Event.FIRST_OPEN ∈ (init {} 5 emptyStore).1 ↔
      emptyStore.firstOpenTime = none) ∧
    (init {} 5 emptyStore).2.firstOpenTime =
      some (emptyStore.firstOpenTime.getD 5) ∧
    countFirstOpen (initRun {} [6, 7] emptyStore).1 ≤ 1 :=
  c5_first_open_at_most_once {} 5 emptyStore [6, 7]

/-- C4 fails on the code: on the emit path of trackDailyActiveUser the
marker write is registered via .then on the promise track returns, and that
promise resolves when track's body finishes, which starts the fetch without
awaiting it; so the write runs as a microtask directly after the body, with
the network send settling only afterwards.  The execution order is the
marker read, the send start, the marker write, and only then the send
completion — the write is not sequenced after the send completes. -/
theorem c4_marker_write_precedes_send_completion (appId : String) :
    trackDailyActiveUserEmitTrace appId =
      [Op.getItem (mkAsyncStorageKeys appId).lastDauTracked,
       Op.fetchStart "DAILY_ACTIVE_USER",
       Op.setItem (mkAsyncStorageKeys appId).lastDauTracked,
       Op.fetchSettle "DAILY_ACTIVE_USER"] := rfl

/-- C7 fails on the code: when the send fails, the fetch chain inside track
ends rejected (the catch handler rethrows after logging), but track's body
neither awaits nor returns that chain, so the promise track returns — and
likewise the one trackCustomEvent returns — fulfills regardless; a caller
awaiting the emission never observes the failure. -/
theorem c7_track_rejection_not_surfaced :
    fetchChainSettle true = Settlement.rejected ∧
    trackSettle true = Settlement.fulfilled ∧
    trackSettle false = Settlement.fulfilled ∧
    trackCustomEventSettle true = Settlement.fulfilled :=
  ⟨rfl, rfl, rfl, rfl⟩

/-- C8: startSession sets the in-memory session start to now and emits
SESSION_START whose timeSinceLastSession is null without a stored session
end and now minus the stored end otherwise; ending a session at T and
starting one at T+120 yields timeSinceLastSession 120. -/
theorem c8_session_start_time_since_last (now : Int) (s : Store) :
    (startSession now s).2 = now ∧
    (s.endOfLastSession = none →
      (startSession now s).1 = [Event.SESSION_START none]) ∧
    (∀ t, s.endOfLastSession = some t →
      (startSession now s).1 =
        [Event.SESSION_START (some (differenceInSeconds now t))]) ∧
    (∀ T sessionStart s', (startSession (T + 120) (endSession T sessionStart s').2).1 =
      [Event.SESSION_START (some 120)]) := by
  refine ⟨rfl, ?_, ?_, ?_⟩
  · intro h; simp [startSession, h]
  · intro t h; simp [startSession, h]
  · intro T sessionStart s'
    simp [startSession, endSession, differenceInSeconds]

/-- Witness for C8 at now 50 with a session end stored at 30, and the
T / T+120 scenario at T = 30. -/
theorem c8_session_start_time_since_last_witness :
    (({ emptyStore with endOfLastSession := some 30 } : Store).endOfLastSession
      = some 30) ∧
    (startSession 50 { emptyStore with endOfLastSession := some 30 }).1 =
      [Event.SESSION_START (some (differenceInSeconds 50 30))] ∧
    (startSession (30 + 120) (endSession 30 0 emptyStore).2).1 =
      [Event.SESSION_START (some 120)] :=
  ⟨rfl,
    (c8_session_start_time_since_last 50
      { emptyStore with endOfLastSession := some 30 }).2.2.1 30 rfl,
    (c8_session_start_time_since_last 50
      { emptyStore with endOfLastSession := some 30 }).2.2.2 30 0 emptyStore⟩

/-- C9: reset emits nothing, leaves the in-memory session state unchanged
and clears the store to the fresh-install store, so cadence evaluation after
a reset coincides with cadence evaluation on a fresh install, where all four
ACTIVE_USER events emit once. -/
theorem c9_reset_then_cadence_fresh (st : LuminState) (cfg : LuminConfig)
    (now : Int) :
    (clearLuminState st).2 = [] ∧
    (clearLuminState st).1.sessionStartTime = st.sessionStartTime ∧
    (clearLuminState st).1.store = emptyStore ∧
    trackActiveUser cfg now (clearLuminItemsFromAsyncStorage st.store) =
      trackActiveUser cfg now emptyStore ∧
    (trackActiveUser cfg now (clearLuminItemsFromAsyncStorage st.store)).1 =
      [Event.DAILY_ACTIVE_USER, Event.WEEKLY_ACTIVE_USER,
       Event.MONTHLY_ACTIVE_USER, Event.YEARLY_ACTIVE_USER] :=
  ⟨rfl, rfl, rfl, rfl, rfl⟩

/-- C10: when the firstOpenTime marker is absent, the callback writes the
marker and only then calls track, so the storage write is issued before the
FIRST_OPEN send starts (the reverse of the cadence-marker ordering); and
once the marker is persisted, a later run of the check emits nothing, so a
crash between write and send suppresses the event rather than duplicating
it. -/
theorem c10_first_open_write_before_send (appId : String) (now : Int)
    (s : Store) :
    setFirstOpenTimeEmitTrace appId =
      [Op.getItem (mkAsyncStorageKeys appId).firstOpenTime,
       Op.setItem (mkAsyncStorageKeys appId).firstOpenTime,
       Op.fetchStart "FIRST_OPEN",
       Op.fetchSettle "FIRST_OPEN"] ∧
    (∀ t, s.firstOpenTime = some t → setFirstOpenTime now s = ([], s)) := by
  refine ⟨rfl, ?_⟩
  intro t h
  simp [setFirstOpenTime, h]

/-- C6 fails as stated on tokens with more than one colon: splitting
"a:b:c" on the first colon would bind the halves "a" and "b:c", but the
constructor succeeds binding appSecret to "b" — JavaScript split cuts at
every colon and the destructuring keeps only the first two segments. -/
theorem c6_multi_colon_counterexample :
    luminConstructor "a:b:c" =
      Except.ok { id := "a", token := "b",
                  asyncStorageKeys := mkAsyncStorageKeys "a" } ∧
    ("b" : String) ≠ "b:c" :=
  ⟨rfl, by decide⟩

/-- C6 (amended): construction trims the token and splits it on every colon;
it fails synchronously with the malformed-token error iff the first segment
is empty or a second segment is missing or empty (so for "notoken" in
particular), and otherwise succeeds binding appId and appSecret to the first
two segments — text after a second colon is discarded — with the six storage
keys derived from appId; the constructor body performs no storage or network
access. -/
theorem c6_token_parsing (t : String) :
    (luminConstructor t = Except.error "Lumin token malformed!" ∨
     luminConstructor t = Except.ok
       { id := (tokenSegments t).getD 0 ""
         token := (tokenSegments t).getD 1 ""
         asyncStorageKeys :=
           mkAsyncStorageKeys ((tokenSegments t).getD 0 "") }) ∧
    (luminConstructor t = Except.error "Lumin token malformed!" ↔
      ((tokenSegments t).getD 0 "" = "" ∨
       (tokenSegments t).getD 1 "" = "")) ∧
    luminConstructorOps t = [] ∧
    luminConstructor "notoken" = Except.error "Lumin token malformed!" := by
  by_cases h : (tokenSegments t).getD 0 "" = "" ∨ (tokenSegments t).getD 1 "" = ""
  · rw [luminConstructor_eq_ite t, if_pos h]
    exact ⟨Or.inl rfl, ⟨fun _ => h, fun _ => rfl⟩, rfl, rfl⟩
  · rw [luminConstructor_eq_ite t, if_neg h]
    refine ⟨Or.inr rfl, ⟨fun he => ?_, fun hh => absurd hh h⟩, rfl, rfl⟩
    exact absurd he (by simp)

/-- Witness for C6 (amended) at the token "abc:def". -/
theorem c6_token_parsing_witness :
    (luminConstructor "abc:def" = Except.error "Lumin token malformed!" ∨
     luminConstructor "abc:def" = Except.ok
       { id := (tokenSegments "abc:def").getD 0 ""
         token := (tokenSegments "abc:def").getD 1 ""
         asyncStorageKeys :=
           mkAsyncStorageKeys ((tokenSegments "abc:def").getD 0 "") }) ∧
    (luminConstructor "abc:def" = Except.error "Lumin token malformed!" ↔
      ((tokenSegments "abc:def").getD 0 "" = "" ∨
       (tokenSegments "abc:def").getD 1 "" = "")) :=
  ⟨(c6_token_parsing "abc:def").1, (c6_token_parsing "abc:def").2.1⟩

/-- Witness for C10 at appId abc, now 9, marker already present at 3. -/
theorem c10_first_open_write_before_send_witness :
    (({ emptyStore with firstOpenTime := some 3 } : Store).firstOpenTime =
      some 3) ∧
    setFirstOpenTime 9 { emptyStore with firstOpenTime := some 3 } =
      ([], { emptyStore with firstOpenTime := some 3 }) :=
  ⟨rfl,
    (c10_first_open_write_before_send "abc" 9
      { emptyStore with firstOpenTime := some 3 }).2 3 rfl⟩

end Lumin
